import Mathlib

/-!
Verification development for the transport/wire-protocol plumbing layer
(`include/ews/plumbing.hpp`) of the ews-cpp repository.

The C++ source is shallowly embedded: member functions become pure Lean
functions over explicit state, C++ exceptions become `Except` values with the
inductive `exc` standing for the exception types that cross the functions'
boundaries, and external collaborators (the rapidxml parser, the libcurl
transfer machinery) are parameters of the embedded functions; where their
behaviour matters it is modelled from the specification and marked as such.
-/

namespace EwsPlumbing

/-- Build configuration relevant to the `EWS_ASSERT` macro: whether `NDEBUG`
was defined and whether `EWS_ENABLE_ASSERTS` was defined during compilation. -/
structure build_config where
  ndebug : Bool
  ews_enable_asserts : Bool
deriving DecidableEq, Repr

/-- `EWS_ASSERT(expr)` expands to `assert(expr)` exactly when `NDEBUG` is not
defined and `EWS_ENABLE_ASSERTS` is defined; otherwise it expands to
`((void)0)`. -/
def asserts_active (cfg : build_config) : Bool :=
  !cfg.ndebug && cfg.ews_enable_asserts

/-- Model of `EWS_ASSERT(expr)`: returns `false` (the program aborts) only
when assertions are active and the expression is false; otherwise execution
continues. -/
def ews_assert (cfg : build_config) (expr : Bool) : Bool :=
  if asserts_active cfg then expr else true

/-- The NUL character appended to the response buffer by the write callback. -/
def nul : Char := Char.ofNat 0

/-- A single-quote character, used by `curl::make_error` to delimit the
underlying reason string. -/
def squote : String := String.singleton (Char.ofNat 39)

/-- Exceptions crossing the boundaries of the embedded functions. The
constructors stand for `rapidxml::parse_error`, `ews::plumbing::parse_error`,
`ews::curl::curl_error`, and an `assert` failure aborting the process. -/
inductive exc where
  | rapidxml_parse_error (msg : String)
  | parse_error (msg : String)
  | curl_error (msg : String)
  | assertion_failure
deriving DecidableEq, Repr

/-- `CURLE_OK` from curl.h. -/
def CURLE_OK : Nat := 0

/-- `CURLE_FAILED_INIT` from curl.h. -/
def CURLE_FAILED_INIT : Nat := 2

/-- `CURLE_WRITE_ERROR` from curl.h: returned by `curl_easy_perform` when the
write callback aborts the transfer. -/
def CURLE_WRITE_ERROR : Nat := 23

/-- `CURLAUTH_NTLM` from curl.h (`1 << 3`). -/
def CURLAUTH_NTLM : Nat := 8

/-- `curl::make_error(msg, rescode).what()`: the message of the `curl_error`
built from a failed cURL call, `msg + ": \'" + curl_easy_strerror(rescode)
+ "\'"`. The external `curl_easy_strerror` is a parameter. -/
def make_error_msg (strerror : Nat → String) (msg : String) (rescode : Nat) :
    String :=
  msg ++ ": " ++ squote ++ strerror rescode ++ squote

end EwsPlumbing

namespace EwsPlumbing

/-! ### Scoped-exit guard (`ews::plumbing::on_scope_exit`) -/

/-- How the scope enclosing an `on_scope_exit` guard terminates. -/
inductive exit_kind where
  | normal
  | early_return
  | exception
deriving DecidableEq, Repr

/-- The guard's single data member `func_`, a `std::function<void(void)>`
which is empty after `release()`. The wrapped action is modelled as a state
transformer on a type `σ`. -/
structure on_scope_exit (σ : Type) where
  func : Option (σ → σ)

/-- The guard's constructor: moving the action into `func_` may throw, in
which case the catch block invokes the action immediately and no guard object
comes into existence (the exception propagates). -/
def on_scope_exit.construct {σ : Type} (action : σ → σ)
    (capture_throws : Bool) (s : σ) : Option (on_scope_exit σ) × σ :=
  if capture_throws then (none, action s) else (some ⟨some action⟩, s)

/-- `release()`: sets `func_` to `nullptr`, disabling the pending call. -/
def on_scope_exit.release {σ : Type} (_ : on_scope_exit σ) : on_scope_exit σ :=
  ⟨none⟩

/-- The guard's destructor: invokes `func_` if it is non-empty. -/
def on_scope_exit.destroy {σ : Type} (g : on_scope_exit σ) (s : σ) : σ :=
  match g.func with
  | some f => f s
  | none => s

/-- One scope that constructs a guard over `action`, optionally calls
`release()`, and then exits in manner `k`; the destructor runs at scope exit
regardless of `k`. When construction itself throws, the action has already
been invoked by the constructor's catch block and no destructor runs. -/
def scoped_action_runs {σ : Type} (action : σ → σ)
    (capture_throws do_release : Bool) (k : exit_kind) (s : σ) : σ :=
  match on_scope_exit.construct action capture_throws s with
  | (none, s1) => s1
  | (some g, s1) =>
    let g1 := if do_release then g.release else g
    match k with
    | _ => g1.destroy s1

end EwsPlumbing

namespace EwsPlumbing

/-! ### Response wrapper (`ews::plumbing::http_response`) -/

/-- Model of rapidxml's destructive parse (`doc_.parse<0>(&data_[0])`): a
function from the current document and buffer to a result (a diagnostic string
on failure), the mutated document and the mutated buffer. The document type is
a parameter `δ`, standing for `rapidxml::xml_document<char>`. -/
def RawParser (δ : Type) : Type :=
  δ → List Char → (Except String Unit) × δ × List Char

/-- The four data members of `http_response`: the owned byte buffer `data_`,
the document `doc_`, the HTTP status code `code_`, and the flag `parsed_`. -/
structure http_response (δ : Type) where
  data : List Char
  doc : δ
  code : Int
  parsed : Bool
deriving DecidableEq, Repr

/-- The `http_response(long, std::vector<char>&&)` constructor: initializes
the members and runs `EWS_ASSERT(!data_.empty())`; an active failing assert
aborts, modelled as `exc.assertion_failure`. `empty_doc` is the
default-constructed `rapidxml::xml_document`. -/
def http_response.construct {δ : Type} (cfg : build_config) (code : Int)
    (empty_doc : δ) (data : List Char) : Except exc (http_response δ) :=
  if ews_assert cfg (!data.isEmpty) then
    Except.ok { data := data, doc := empty_doc, code := code, parsed := false }
  else
    Except.error exc.assertion_failure

/-- Modelled from the spec: `rapidxml::xml_document::parse` throws a
`rapidxml::parse_error` carrying a diagnostic when the buffer is not
well-formed XML, mutating document and buffer in place either way. -/
def rapidxml_parse {δ : Type} (p : RawParser δ) (doc : δ) (data : List Char) :
    Except exc Unit × δ × List Char :=
  match p doc data with
  | (Except.ok _, doc1, data1) => (Except.ok (), doc1, data1)
  | (Except.error msg, doc1, data1) =>
    (Except.error (exc.rapidxml_parse_error msg), doc1, data1)

/-- `http_response::parse()`: runs the destructive parse inside a try block;
the catch clause catches `rapidxml::parse_error` and rethrows it as
`ews::plumbing::parse_error` with the same `what()` text (type erasure). -/
def http_response.parse {δ : Type} (p : RawParser δ) (r : http_response δ) :
    Except exc Unit × http_response δ :=
  match rapidxml_parse p r.doc r.data with
  | (Except.ok _, doc1, data1) =>
    (Except.ok (), { r with doc := doc1, data := data1 })
  | (Except.error e, doc1, data1) =>
    let r1 : http_response δ := { r with doc := doc1, data := data1 }
    match e with
    | exc.rapidxml_parse_error msg => (Except.error (exc.parse_error msg), r1)
    | e1 => (Except.error e1, r1)

/-- `http_response::payload()`: if `parsed_` is not yet set, constructs an
`on_scope_exit` guard that sets `parsed_ = true`, then calls `parse()`; the
guard fires on both the normal and the exception path, so `parsed_` is `true`
afterwards either way. Returns `doc_`. -/
def http_response.payload {δ : Type} (p : RawParser δ) (r : http_response δ) :
    Except exc δ × http_response δ :=
  if r.parsed then (Except.ok r.doc, r)
  else
    match r.parse p with
    | (Except.ok _, r1) => (Except.ok r1.doc, { r1 with parsed := true })
    | (Except.error e, r1) => (Except.error e, { r1 with parsed := true })

end EwsPlumbing

namespace EwsPlumbing

/-! ### Request builder (`ews::plumbing::http_request`) and credentials -/

/-- The CURL options the plumbing layer passes to `curl_easy_setopt`. -/
inductive curl_option where
  | CURLOPT_URL
  | CURLOPT_POST
  | CURLOPT_USERPWD
  | CURLOPT_HTTPAUTH
  | CURLOPT_USERAGENT
  | CURLOPT_POSTFIELDS
  | CURLOPT_POSTFIELDSIZE
  | CURLOPT_HTTPHEADER
  | CURLOPT_WRITEFUNCTION
  | CURLOPT_WRITEDATA
  | CURLOPT_VERBOSE
  | CURLOPT_SSL_VERIFYPEER
deriving DecidableEq, Repr

/-- The value passed with a CURL option (string or integral argument). -/
inductive option_value where
  | str (s : String)
  | num (n : Nat)
deriving DecidableEq, Repr

/-- The observable state of an `http_request`: the options successfully
recorded on its CURL handle (a test double of the handle, per the spec's
"inspect the options recorded on a test double Transport Handle") and the
`curl_string_list headers_` member. -/
structure http_request where
  recorded_options : List (curl_option × option_value)
  headers : List String
deriving DecidableEq, Repr

/-- `http_request::set_option`: calls `curl_easy_setopt` (modelled by the
oracle `setopt`, which returns the `CURLcode` for a given call) and switches
on the return code: `CURLE_OK` records the option and returns, while
`CURLE_FAILED_INIT` and every other nonzero code throw a `curl_error` built by
`curl::make_error` with distinct context messages. -/
def http_request.set_option (setopt : curl_option → option_value → Nat)
    (strerror : Nat → String) (req : http_request) (opt : curl_option)
    (v : option_value) : Except exc http_request :=
  let retcode := setopt opt v
  if retcode = CURLE_OK then
    Except.ok
      { req with recorded_options := req.recorded_options ++ [(opt, v)] }
  else if retcode = CURLE_FAILED_INIT then
    Except.error (exc.curl_error
      (make_error_msg strerror "curl_easy_setopt: unsupported option" retcode))
  else
    Except.error (exc.curl_error
      (make_error_msg strerror "curl_easy_setopt: failed setting option"
        retcode))

/-- `http_request::set_content_type`: appends `"Content-Type: " + content_type`
to the header list. -/
def http_request.set_content_type (req : http_request)
    (content_type : String) : http_request :=
  { req with headers := req.headers ++ ["Content-Type: " ++ content_type] }

/-- The members of `ntlm_credentials` in declaration order. -/
structure ntlm_credentials where
  username : String
  password : String
  domain : String
deriving DecidableEq, Repr

/-- `ntlm_credentials::certify` (a `const` member function, so the model also
returns the credential object as it stands after the call): builds the login
string `domain_ + "\\" + username_ + ":" + password_` and sets
`CURLOPT_USERPWD` to it and `CURLOPT_HTTPAUTH` to `CURLAUTH_NTLM` on the
target request. -/
def ntlm_credentials.certify (setopt : curl_option → option_value → Nat)
    (strerror : Nat → String) (c : ntlm_credentials) (req : http_request) :
    Except exc (http_request × ntlm_credentials) :=
  let login := c.domain ++ "\\" ++ c.username ++ ":" ++ c.password
  match req.set_option setopt strerror curl_option.CURLOPT_USERPWD
      (option_value.str login) with
  | Except.error e => Except.error e
  | Except.ok r1 =>
    match r1.set_option setopt strerror curl_option.CURLOPT_HTTPAUTH
        (option_value.num CURLAUTH_NTLM) with
    | Except.error e => Except.error e
    | Except.ok r2 => Except.ok (r2, c)

/-- The write callback installed by `http_request::send`: reserves room for
`size * nmemb + 1` bytes (the `alloc_ok` flag models whether `reserve` throws
`std::bad_alloc`), and on success copies the chunk into the buffer, appends a
terminating NUL byte and returns `realsize`; on allocation failure it returns
`0` to libcurl with the buffer untouched, instead of letting the exception
cross the transport boundary. -/
def write_callback (alloc_ok : Bool) (chunk buf : List Char) :
    Nat × List Char :=
  if alloc_ok then (chunk.length, buf ++ chunk ++ [nul]) else (0, buf)

/-- Modelled from the spec: libcurl hands the response body to the installed
write callback one chunk at a time, in order; a callback return value
different from the chunk's size aborts the transfer with `CURLE_WRITE_ERROR`.
Each chunk is paired with the allocation oracle for that invocation. Returns
the final `CURLcode` and the accumulated buffer. -/
def deliver_chunks : List (List Char × Bool) → List Char → Nat × List Char
  | [], buf => (CURLE_OK, buf)
  | (c, ok1) :: rest, buf =>
    let r := write_callback ok1 c buf
    if r.1 = c.length then deliver_chunks rest r.2
    else (CURLE_WRITE_ERROR, r.2)

/-- The tail of `http_request::send` after `curl_easy_perform` returns: a
nonzero `retcode` throws `curl::make_error("curl_easy_perform", retcode)`;
otherwise the accumulated bytes and the response code obtained from
`curl_easy_getinfo` are wrapped in an `http_response`. -/
def http_request.send_result {δ : Type} (strerror : Nat → String)
    (cfg : build_config) (empty_doc : δ) (retcode : Nat)
    (response_data : List Char) (response_code : Int) :
    Except exc (http_response δ) :=
  if retcode ≠ 0 then
    Except.error (exc.curl_error
      (make_error_msg strerror "curl_easy_perform" retcode))
  else
    http_response.construct cfg response_code empty_doc response_data

end EwsPlumbing

namespace EwsPlumbing

/-! ### Envelope composer (`ews::plumbing::make_raw_soap_request`) -/

/-- The raw-string literal streamed first by `make_raw_soap_request`: the XML
declaration followed by the opening `<soap:Envelope` tag with its five
namespace declarations. -/
def envelope_head : String :=
  "<?xml version=\"1.0\" encoding=\"utf-8\"?>\n" ++
  "<soap:Envelope\n" ++
  "    xmlns:xsi=\"http://www.w3.org/2001/XMLSchema-instance\"\n" ++
  "    xmlns:xsd=\"http://www.w3.org/2001/XMLSchema\"\n" ++
  "    xmlns:soap=\"http://schemas.xmlsoap.org/soap/envelope/\"\n" ++
  "    xmlns:m=\"http://schemas.microsoft.com/exchange/services/2006/messages\"\n" ++
  "    xmlns:t=\"http://schemas.microsoft.com/exchange/services/2006/types\"\n" ++
  "    >"

/-- The envelope string built in `request_stream` by `make_raw_soap_request`
and handed to `send`: the head literal, then — only when `soap_headers` is
non-empty — `<soap:Header>\n`, each header streamed in a range-for loop, and
`</soap:Header>\n`, then the body section and the closing tag. -/
def make_raw_soap_request_envelope (soap_body : String)
    (soap_headers : List String) : String :=
  let s0 := envelope_head
  let s1 :=
    if soap_headers.isEmpty then s0
    else
      (soap_headers.foldl (fun acc h => acc ++ h) (s0 ++ "<soap:Header>\n"))
        ++ "</soap:Header>\n"
  s1 ++ "<soap:Body>\n" ++ soap_body ++ "</soap:Body>\n" ++ "</soap:Envelope>\n"

/-- Spec-side part: the XML declaration line. -/
def xml_declaration : String :=
  "<?xml version=\"1.0\" encoding=\"utf-8\"?>\n"

/-- Spec-side part: the `soap:Envelope` opening tag carrying, in order, the
`xsi`, `xsd`, `soap`, `m` and `t` namespace declarations. -/
def envelope_open_tag : String :=
  "<soap:Envelope\n" ++
  "    xmlns:xsi=\"http://www.w3.org/2001/XMLSchema-instance\"\n" ++
  "    xmlns:xsd=\"http://www.w3.org/2001/XMLSchema\"\n" ++
  "    xmlns:soap=\"http://schemas.xmlsoap.org/soap/envelope/\"\n" ++
  "    xmlns:m=\"http://schemas.microsoft.com/exchange/services/2006/messages\"\n" ++
  "    xmlns:t=\"http://schemas.microsoft.com/exchange/services/2006/types\"\n" ++
  "    >"

/-- Concatenation of a list of strings in order (each fragment verbatim). -/
def concat_strings : List String → String
  | [] => ""
  | h :: t => h ++ concat_strings t

/-- Spec-side part: the `soap:Header` section, present if and only if the
header-fragment list is non-empty, wrapping each fragment verbatim in list
order. -/
def soap_header_section (soap_headers : List String) : String :=
  match soap_headers with
  | [] => ""
  | hs => "<soap:Header>\n" ++ concat_strings hs ++ "</soap:Header>\n"

/-- Spec-side part: the `soap:Body` section wrapping the single body fragment
verbatim. -/
def soap_body_section (soap_body : String) : String :=
  "<soap:Body>\n" ++ soap_body ++ "</soap:Body>\n"

/-- Spec-side part: the closing `soap:Envelope` tag. -/
def envelope_close_tag : String :=
  "</soap:Envelope>\n"

/-- Modelled from the spec's words for comparison against
`make_raw_soap_request_envelope`: the envelope is, in order, the XML
declaration, the root opening tag with the fixed namespace declarations, the
optional header section, the body section and the root closing tag. -/
def soap_envelope_spec (soap_body : String) (soap_headers : List String) :
    String :=
  xml_declaration ++ envelope_open_tag ++ soap_header_section soap_headers ++
    soap_body_section soap_body ++ envelope_close_tag

/-! ### Concrete instances used to evaluate the embedded functions -/

/-- A concrete successful destructive parse over `δ = Nat`: bumps the
document and overwrites the buffer (modelling in-place mutation). -/
def ok_parse_fn : RawParser Nat :=
  fun doc data => (Except.ok (), doc + 1, data.map (fun _ => nul))

/-- A concrete failing destructive parse over `δ = Nat`: reports a rapidxml
diagnostic, having mutated the buffer up to the error position. -/
def fail_parse_fn : RawParser Nat :=
  fun doc data => (Except.error "expected <", doc, data.map (fun _ => nul))

/-- A `curl_easy_setopt` oracle that accepts every option. -/
def always_ok_setopt : curl_option → option_value → Nat :=
  fun _ _ => CURLE_OK

/-- A `curl_easy_setopt` oracle that rejects every option as unsupported. -/
def failed_init_setopt : curl_option → option_value → Nat :=
  fun _ _ => CURLE_FAILED_INIT

/-- A `curl_easy_setopt` oracle failing with `CURLE_COULDNT_CONNECT` (7). -/
def couldnt_connect_setopt : curl_option → option_value → Nat :=
  fun _ _ => 7

/-- A concrete `curl_easy_strerror`. -/
def const_strerror : Nat → String :=
  fun _ => "transport failure"

end EwsPlumbing

namespace EwsPlumbing

/-! ### Helper lemmas -/

theorem foldl_append_eq_concat (l : List String) (init : String) :
    l.foldl (fun acc h => acc ++ h) init = init ++ concat_strings l := by
  induction l generalizing init with
  | nil => simp [concat_strings]
  | cons h t ih => simp [concat_strings, ih, String.append_assoc]

theorem header_cons_ne_empty (s : String) : "<soap:Header>\n" ++ s ≠ "" := by
  intro h
  have hlen := congrArg String.length h
  simp [String.length_append] at hlen
  exact absurd hlen.1 (by decide)

theorem make_error_msg_lengths (strerror : Nat → String) (m1 m2 : String)
    (rc : Nat) (hne : m1.length ≠ m2.length) :
    make_error_msg strerror m1 rc ≠ make_error_msg strerror m2 rc := by
  intro h
  have hlen := congrArg String.length h
  simp [make_error_msg, String.length_append] at hlen
  omega

theorem soap_header_section_cons_ne_empty (h : String) (t : List String) :
    soap_header_section (h :: t) ≠ "" := by
  have heq : soap_header_section (h :: t)
      = "<soap:Header>\n" ++ (concat_strings (h :: t) ++ "</soap:Header>\n") := by
    simp [soap_header_section, String.append_assoc]
  rw [heq]
  exact header_cons_ne_empty _

theorem deliver_chunks_all_ok (chunks : List (List Char)) (buf : List Char) :
    deliver_chunks (chunks.map (fun c => (c, true))) buf
      = (CURLE_OK, buf ++ (chunks.map (fun c => c ++ [nul])).flatten) := by
  induction chunks generalizing buf with
  | nil => simp [deliver_chunks]
  | cons c rest ih =>
    simp [deliver_chunks, write_callback, ih, List.append_assoc]

theorem flatten_map_nul_ends_with_nul (chunks : List (List Char))
    (h : chunks ≠ []) :
    ∃ pre : List Char,
      (chunks.map (fun c => c ++ [nul])).flatten = pre ++ [nul] := by
  induction chunks with
  | nil => exact absurd rfl h
  | cons c rest ih =>
    cases rest with
    | nil => exact ⟨c, by simp⟩
    | cons d ds =>
      obtain ⟨pre2, hpre2⟩ := ih (by simp)
      refine ⟨c ++ [nul] ++ pre2, ?_⟩
      simp only [List.map_cons, List.flatten_cons] at hpre2 ⊢
      rw [hpre2]
      simp [List.append_assoc]

end EwsPlumbing


namespace EwsPlumbing

/-! ### Claim theorems -/

/-- C8: for every wrapped action, an `on_scope_exit` guard runs the action
exactly once at destruction — for normal exit, early return and exception
alike — and zero times if `release()` was called before scope exit; if
capturing the action during construction throws, the action is still invoked
immediately. -/
theorem on_scope_exit_runs_exactly_once {σ : Type} (action : σ → σ)
    (do_release : Bool) (k : exit_kind) (s : σ) :
    (scoped_action_runs action false false k s = action s)
    ∧ (scoped_action_runs action false true k s = s)
    ∧ (scoped_action_runs action true do_release k s = action s) := by
  refine ⟨?_, ?_, ?_⟩ <;>
    simp [scoped_action_runs, on_scope_exit.construct, on_scope_exit.release,
      on_scope_exit.destroy]

/-- C3 counterexample: in a build configuration where `EWS_ENABLE_ASSERTS`
was not defined (here: `NDEBUG` undefined as well), constructing an
`http_response` from an empty buffer succeeds, refuting "for every build
configuration an empty buffer never yields a successfully constructed
wrapper". -/
theorem empty_buffer_accepted_without_asserts :
    http_response.construct ⟨false, false⟩ 200 (0 : Nat) []
      = Except.ok ⟨[], 0, 200, false⟩ := rfl

/-- C3 (amended): constructing an `http_response` with an empty buffer is
rejected by the `EWS_ASSERT` precondition exactly in build configurations
where assertions are active (`EWS_ENABLE_ASSERTS` defined and `NDEBUG` not
defined); in every other configuration the empty buffer yields a constructed
wrapper, and a non-empty buffer always constructs successfully. -/
theorem empty_buffer_rejected_iff_asserts_active {δ : Type}
    (cfg : build_config) (code : Int) (empty_doc : δ) :
    (asserts_active cfg = true →
      http_response.construct cfg code empty_doc []
        = Except.error exc.assertion_failure)
    ∧ (asserts_active cfg = false →
      http_response.construct cfg code empty_doc []
        = Except.ok ⟨[], empty_doc, code, false⟩)
    ∧ (∀ data : List Char, data ≠ [] →
      http_response.construct cfg code empty_doc data
        = Except.ok ⟨data, empty_doc, code, false⟩) := by
  refine ⟨?_, ?_, ?_⟩
  · intro h
    simp [http_response.construct, ews_assert, h]
  · intro h
    simp [http_response.construct, ews_assert, h]
  · intro data hne
    cases data with
    | nil => exact absurd rfl hne
    | cons c cs =>
      cases hact : asserts_active cfg <;>
        simp [http_response.construct, ews_assert, hact, List.isEmpty]

/-- C3 witness for the amended claim: concrete build configurations on both
sides of the assertion axis, evaluated on the empty and a non-empty buffer. -/
theorem empty_buffer_rejected_iff_asserts_active_witness :
    (asserts_active ⟨false, true⟩ = true
      ∧ http_response.construct ⟨false, true⟩ 200 (0 : Nat) []
          = Except.error exc.assertion_failure)
    ∧ (asserts_active ⟨true, true⟩ = false
      ∧ http_response.construct ⟨true, true⟩ 200 (0 : Nat) []
          = Except.ok ⟨[], 0, 200, false⟩)
    ∧ (['x'] ≠ ([] : List Char)
      ∧ http_response.construct ⟨false, true⟩ 200 (0 : Nat) ['x']
          = Except.ok ⟨['x'], 0, 200, false⟩) := by
  refine ⟨⟨rfl, ?_⟩, ⟨rfl, ?_⟩, ⟨by decide, ?_⟩⟩
  · exact (empty_buffer_rejected_iff_asserts_active ⟨false, true⟩ 200 0).1 rfl
  · exact (empty_buffer_rejected_iff_asserts_active ⟨true, true⟩ 200 0).2.1 rfl
  · exact (empty_buffer_rejected_iff_asserts_active ⟨false, true⟩ 200 0).2.2
      ['x'] (by decide)

/-- C1: for an `http_response` not yet parsed whose buffer parses
successfully, `payload()` returns the parsed document and sets the `parsed_`
flag; a second `payload()` call returns the very same document and state, and
does so for an arbitrary parser — i.e. without invoking the parser on the
(destructively mutated) buffer again. -/
theorem payload_parses_once {δ : Type} (p : RawParser δ)
    (r : http_response δ) (doc1 : δ) (data1 : List Char)
    (hnp : r.parsed = false)
    (hp : p r.doc r.data = (Except.ok (), doc1, data1)) :
    http_response.payload p r
      = (Except.ok doc1,
        { data := data1, doc := doc1, code := r.code, parsed := true })
    ∧ ∀ q : RawParser δ,
      http_response.payload q
          { data := data1, doc := doc1, code := r.code, parsed := true }
        = (Except.ok doc1,
          { data := data1, doc := doc1, code := r.code, parsed := true }) := by
  constructor
  · simp [http_response.payload, hnp, http_response.parse, rapidxml_parse, hp]
  · intro q
    simp [http_response.payload]

/-- C1 witness: a concrete unparsed response and successful parser, with the
hypotheses evaluated. -/
theorem payload_parses_once_witness :
    ((⟨['a'], 0, 200, false⟩ : http_response Nat).parsed = false
      ∧ ok_parse_fn (0 : Nat) ['a'] = (Except.ok (), 1, [nul]))
    ∧ http_response.payload ok_parse_fn ⟨['a'], 0, 200, false⟩
        = (Except.ok 1, ⟨[nul], 1, 200, true⟩)
    ∧ ∀ q : RawParser Nat,
        http_response.payload q ⟨[nul], 1, 200, true⟩
          = (Except.ok 1, ⟨[nul], 1, 200, true⟩) := by
  have h := payload_parses_once ok_parse_fn
    (⟨['a'], 0, 200, false⟩ : http_response Nat) 1 [nul] rfl rfl
  exact ⟨⟨rfl, rfl⟩, h.1, h.2⟩

/-- C2: for an `http_response` not yet parsed whose buffer is malformed (the
parser fails with diagnostic `msg`), `payload()` raises the boundary type
`parse_error` carrying exactly that diagnostic, and never the library type
`rapidxml::parse_error`. -/
theorem payload_malformed_raises_parse_error {δ : Type} (p : RawParser δ)
    (r : http_response δ) (msg : String) (doc1 : δ) (data1 : List Char)
    (hnp : r.parsed = false)
    (hp : p r.doc r.data = (Except.error msg, doc1, data1)) :
    (http_response.payload p r).1 = Except.error (exc.parse_error msg)
    ∧ ∀ m2 : String,
      (http_response.payload p r).1
        ≠ Except.error (exc.rapidxml_parse_error m2) := by
  have hmain :
      (http_response.payload p r).1 = Except.error (exc.parse_error msg) := by
    simp [http_response.payload, hnp, http_response.parse, rapidxml_parse, hp]
  refine ⟨hmain, ?_⟩
  intro m2 hcontra
  rw [hmain] at hcontra
  simp at hcontra

/-- C2 witness: a concrete malformed buffer. -/
theorem payload_malformed_raises_parse_error_witness :
    ((⟨['a'], 0, 200, false⟩ : http_response Nat).parsed = false
      ∧ fail_parse_fn (0 : Nat) ['a']
          = (Except.error "expected <", 0, [nul]))
    ∧ (http_response.payload fail_parse_fn
          (⟨['a'], 0, 200, false⟩ : http_response Nat)).1
        = Except.error (exc.parse_error "expected <")
    ∧ ∀ m2 : String,
        (http_response.payload fail_parse_fn
            (⟨['a'], 0, 200, false⟩ : http_response Nat)).1
          ≠ Except.error (exc.rapidxml_parse_error m2) := by
  have h := payload_malformed_raises_parse_error fail_parse_fn
    (⟨['a'], 0, 200, false⟩ : http_response Nat) "expected <" 0 [nul] rfl rfl
  exact ⟨⟨rfl, rfl⟩, h.1, h.2⟩

/-- C9: when `payload()` raises a parse error on a malformed buffer, the
scope guard still sets the `parsed_` flag on the exception path, so every
subsequent `payload()` call on the same wrapper returns the partially-built
document without raising and without re-invoking any parser. -/
theorem payload_error_sets_parsed_flag {δ : Type} (p : RawParser δ)
    (r : http_response δ) (msg : String) (doc1 : δ) (data1 : List Char)
    (hnp : r.parsed = false)
    (hp : p r.doc r.data = (Except.error msg, doc1, data1)) :
    http_response.payload p r
      = (Except.error (exc.parse_error msg),
        { data := data1, doc := doc1, code := r.code, parsed := true })
    ∧ ∀ q : RawParser δ,
      http_response.payload q
          { data := data1, doc := doc1, code := r.code, parsed := true }
        = (Except.ok doc1,
          { data := data1, doc := doc1, code := r.code, parsed := true }) := by
  constructor
  · simp [http_response.payload, hnp, http_response.parse, rapidxml_parse, hp]
  · intro q
    simp [http_response.payload]

/-- C9 witness: after a concrete failed parse the flag is set and the second
call succeeds without a parser invocation. -/
theorem payload_error_sets_parsed_flag_witness :
    ((⟨['a'], 0, 200, false⟩ : http_response Nat).parsed = false
      ∧ fail_parse_fn (0 : Nat) ['a']
          = (Except.error "expected <", 0, [nul]))
    ∧ http_response.payload fail_parse_fn
          (⟨['a'], 0, 200, false⟩ : http_response Nat)
        = (Except.error (exc.parse_error "expected <"), ⟨[nul], 0, 200, true⟩)
    ∧ ∀ q : RawParser Nat,
        http_response.payload q ⟨[nul], 0, 200, true⟩
          = (Except.ok 0, ⟨[nul], 0, 200, true⟩) := by
  have h := payload_error_sets_parsed_flag fail_parse_fn
    (⟨['a'], 0, 200, false⟩ : http_response Nat) "expected <" 0 [nul] rfl rfl
  exact ⟨⟨rfl, rfl⟩, h.1, h.2⟩

end EwsPlumbing

namespace EwsPlumbing

/-- C4: a nonzero `curl_easy_perform` return code makes `send` raise a
`curl_error` embedding the transport's diagnostic string (and return no
response); the write callback signals out-of-memory by returning `0` to the
transport with the buffer untouched instead of throwing, which aborts the
transfer with `CURLE_WRITE_ERROR`. -/
theorem send_transport_failure_raises_curl_error {δ : Type}
    (strerror : Nat → String) (cfg : build_config) (empty_doc : δ)
    (retcode : Nat) (response_data : List Char) (response_code : Int)
    (hfail : retcode ≠ 0) :
    http_request.send_result strerror cfg empty_doc retcode response_data
        response_code
      = Except.error (exc.curl_error
          (make_error_msg strerror "curl_easy_perform" retcode))
    ∧ (∀ chunk buf : List Char, write_callback false chunk buf = (0, buf))
    ∧ (∀ (c : Char) (cs : List Char) (rest : List (List Char × Bool))
        (buf : List Char),
        deliver_chunks ((c :: cs, false) :: rest) buf
          = (CURLE_WRITE_ERROR, buf)) := by
  refine ⟨?_, ?_, ?_⟩
  · simp [http_request.send_result, hfail]
  · intro chunk buf
    simp [write_callback]
  · intro c cs rest buf
    simp [deliver_chunks, write_callback]

/-- C4 witness: a concrete failed transfer (`CURLE_COULDNT_CONNECT` = 7) and
a concrete aborted write-callback invocation. -/
theorem send_transport_failure_raises_curl_error_witness :
    ((7 : Nat) ≠ 0)
    ∧ http_request.send_result const_strerror ⟨false, false⟩ (0 : Nat) 7 [] 0
        = Except.error (exc.curl_error
            (make_error_msg const_strerror "curl_easy_perform" 7))
    ∧ write_callback false ['x'] [] = (0, [])
    ∧ deliver_chunks [(['x'], false)] [] = (CURLE_WRITE_ERROR, []) := by
  have h := send_transport_failure_raises_curl_error (δ := Nat) const_strerror
    ⟨false, false⟩ 0 7 [] 0 (by decide)
  exact ⟨by decide, h.1, h.2.1 ['x'] [], h.2.2 'x' [] [] []⟩

/-- C5: `set_option` returns normally when the transport answers `CURLE_OK`,
raises a `curl_error` whose message marks the option as unsupported when the
answer is `CURLE_FAILED_INIT`, raises a `curl_error` whose message marks the
set as failed for any other nonzero answer — never silently ignoring a
failure — and the two messages are distinct for any reason string. -/
theorem set_option_translates_retcodes
    (setopt : curl_option → option_value → Nat) (strerror : Nat → String)
    (req : http_request) (opt : curl_option) (v : option_value) :
    (setopt opt v = CURLE_OK →
      http_request.set_option setopt strerror req opt v
        = Except.ok
          { req with recorded_options := req.recorded_options ++ [(opt, v)] })
    ∧ (setopt opt v = CURLE_FAILED_INIT →
      http_request.set_option setopt strerror req opt v
        = Except.error (exc.curl_error (make_error_msg strerror
            "curl_easy_setopt: unsupported option" (setopt opt v))))
    ∧ (setopt opt v ≠ CURLE_OK → setopt opt v ≠ CURLE_FAILED_INIT →
      http_request.set_option setopt strerror req opt v
        = Except.error (exc.curl_error (make_error_msg strerror
            "curl_easy_setopt: failed setting option" (setopt opt v))))
    ∧ (∀ rc : Nat,
      make_error_msg strerror "curl_easy_setopt: unsupported option" rc
        ≠ make_error_msg strerror "curl_easy_setopt: failed setting option"
            rc) := by
  refine ⟨?_, ?_, ?_, ?_⟩
  · intro h
    simp [http_request.set_option, h]
  · intro h
    simp [http_request.set_option, h, CURLE_FAILED_INIT, CURLE_OK]
  · intro h1 h2
    simp [http_request.set_option, h1, h2]
  · intro rc
    exact make_error_msg_lengths strerror _ _ rc (by decide)

/-- C5 witness: the three return-code cases evaluated against concrete
`curl_easy_setopt` oracles, and the distinctness of the two messages. -/
theorem set_option_translates_retcodes_witness :
    (http_request.set_option always_ok_setopt const_strerror ⟨[], []⟩
        curl_option.CURLOPT_URL (option_value.str "u")
      = Except.ok ⟨[(curl_option.CURLOPT_URL, option_value.str "u")], []⟩)
    ∧ (http_request.set_option failed_init_setopt const_strerror ⟨[], []⟩
        curl_option.CURLOPT_URL (option_value.str "u")
      = Except.error (exc.curl_error (make_error_msg const_strerror
          "curl_easy_setopt: unsupported option" CURLE_FAILED_INIT)))
    ∧ (http_request.set_option couldnt_connect_setopt const_strerror ⟨[], []⟩
        curl_option.CURLOPT_URL (option_value.str "u")
      = Except.error (exc.curl_error (make_error_msg const_strerror
          "curl_easy_setopt: failed setting option" 7)))
    ∧ make_error_msg const_strerror "curl_easy_setopt: unsupported option" 2
        ≠ make_error_msg const_strerror
            "curl_easy_setopt: failed setting option" 2 := by
  have h1 := set_option_translates_retcodes always_ok_setopt const_strerror
    ⟨[], []⟩ curl_option.CURLOPT_URL (option_value.str "u")
  have h2 := set_option_translates_retcodes failed_init_setopt const_strerror
    ⟨[], []⟩ curl_option.CURLOPT_URL (option_value.str "u")
  have h3 := set_option_translates_retcodes couldnt_connect_setopt
    const_strerror ⟨[], []⟩ curl_option.CURLOPT_URL (option_value.str "u")
  refine ⟨?_, ?_, ?_, h1.2.2.2 2⟩
  · simpa using h1.1 rfl
  · simpa using h2.2.1 rfl
  · simpa using h3.2.2.1 (by decide) (by decide)

/-- C6: when the transport accepts the options, `certify` records exactly two
options on the request, in order: `CURLOPT_USERPWD` set to
`domain ++ "\" ++ username ++ ":" ++ password` and `CURLOPT_HTTPAUTH` set to
`CURLAUTH_NTLM`; the credential object comes back unchanged. -/
theorem certify_sets_userpwd_and_ntlm
    (setopt : curl_option → option_value → Nat) (strerror : Nat → String)
    (c : ntlm_credentials) (req : http_request)
    (hok : ∀ o v, setopt o v = CURLE_OK) :
    ntlm_credentials.certify setopt strerror c req
      = Except.ok
        ({ req with recorded_options := req.recorded_options ++
            [(curl_option.CURLOPT_USERPWD, option_value.str
                (c.domain ++ "\\" ++ c.username ++ ":" ++ c.password)),
              (curl_option.CURLOPT_HTTPAUTH,
                option_value.num CURLAUTH_NTLM)] }, c) := by
  simp [ntlm_credentials.certify, http_request.set_option, hok]

/-- C6 witness: domain `CORP`, username `alice`, password `secret` yield the
login string `CORP\alice:secret` and the NTLM auth mode, recorded on an
initially empty request, with the credential triple unchanged. -/
theorem certify_sets_userpwd_and_ntlm_witness :
    (∀ o v, always_ok_setopt o v = CURLE_OK)
    ∧ ntlm_credentials.certify always_ok_setopt const_strerror
        ⟨"alice", "secret", "CORP"⟩ ⟨[], []⟩
      = Except.ok
        (⟨[(curl_option.CURLOPT_USERPWD, option_value.str "CORP\\alice:secret"),
            (curl_option.CURLOPT_HTTPAUTH, option_value.num CURLAUTH_NTLM)],
          []⟩,
          ⟨"alice", "secret", "CORP"⟩) := by
  refine ⟨fun o v => rfl, ?_⟩
  have h := certify_sets_userpwd_and_ntlm always_ok_setopt const_strerror
    ⟨"alice", "secret", "CORP"⟩ ⟨[], []⟩ (fun o v => rfl)
  simpa using h

/-- C7: the envelope built and sent by `make_raw_soap_request` is exactly, in
order: the XML declaration; the `soap:Envelope` opening tag with the fixed
`xsi`, `xsd`, `soap`, `m`, `t` namespace declarations; a `soap:Header`
section wrapping each header fragment verbatim in list order, present if and
only if the header list is non-empty; a `soap:Body` section wrapping the body
fragment verbatim; and the closing `soap:Envelope` tag. -/
theorem make_raw_soap_request_envelope_structure (soap_body : String)
    (soap_headers : List String) :
    make_raw_soap_request_envelope soap_body soap_headers
      = soap_envelope_spec soap_body soap_headers
    ∧ (soap_header_section soap_headers = "" ↔ soap_headers = []) := by
  have hhead : envelope_head = xml_declaration ++ envelope_open_tag := rfl
  constructor
  · cases soap_headers with
    | nil =>
      simp [make_raw_soap_request_envelope, soap_envelope_spec,
        soap_header_section, soap_body_section, envelope_close_tag, hhead,
        String.append_assoc]
    | cons h t =>
      have hmerge : ∀ x : String,
          ("</soap:Header>\n" : String) ++ ("<soap:Body>\n" ++ x)
            = "</soap:Header>\n<soap:Body>\n" ++ x := fun x => rfl
      simp [make_raw_soap_request_envelope, soap_envelope_spec,
        soap_header_section, soap_body_section, envelope_close_tag, hhead,
        foldl_append_eq_concat, concat_strings, String.append_assoc, hmerge]
  · cases soap_headers with
    | nil => simp [soap_header_section]
    | cons h t =>
      exact iff_of_false (soap_header_section_cons_ne_empty h t) (by simp)

/-- C10: every successful write-callback invocation grows the buffer by
exactly the chunk's size plus one appended NUL byte; accumulating a response
over several chunks yields each chunk followed by a NUL byte, so the buffer
handed to the destructive parser is NUL-terminated (and a multi-chunk
response carries an embedded NUL after each chunk). -/
theorem write_callback_grows_buffer_nul_terminated :
    (∀ chunk buf : List Char,
      write_callback true chunk buf = (chunk.length, buf ++ chunk ++ [nul])
      ∧ (write_callback true chunk buf).2.length
          = buf.length + chunk.length + 1)
    ∧ (∀ chunks : List (List Char),
      (deliver_chunks (chunks.map (fun c => (c, true))) []).2
        = (chunks.map (fun c => c ++ [nul])).flatten)
    ∧ (∀ chunks : List (List Char), chunks ≠ [] →
      ∃ pre : List Char,
        (deliver_chunks (chunks.map (fun c => (c, true))) []).2
          = pre ++ [nul]) := by
  refine ⟨?_, ?_, ?_⟩
  · intro chunk buf
    constructor
    · simp [write_callback]
    · simp [write_callback]
      omega
  · intro chunks
    simp [deliver_chunks_all_ok]
  · intro chunks h
    obtain ⟨pre, hpre⟩ := flatten_map_nul_ends_with_nul chunks h
    exact ⟨pre, by simp [deliver_chunks_all_ok, hpre]⟩

/-- C10 witness: a two-chunk response accumulates to
`['a', NUL, 'b', NUL]` — one NUL after each chunk, NUL-terminated. -/
theorem write_callback_grows_buffer_nul_terminated_witness :
    (write_callback true ['a', 'b'] ['z'] = (2, ['z', 'a', 'b', nul]))
    ∧ (deliver_chunks [(['a'], true), (['b'], true)] []).2
        = ['a', nul, 'b', nul]
    ∧ ([['a'], ['b']] ≠ ([] : List (List Char))
      ∧ ∃ pre : List Char,
          (deliver_chunks [(['a'], true), (['b'], true)] []).2
            = pre ++ [nul]) := by
  have h := write_callback_grows_buffer_nul_terminated
  refine ⟨?_, ?_, ⟨by decide, ?_⟩⟩
  · simpa using (h.1 ['a', 'b'] ['z']).1
  · simpa using h.2.1 [['a'], ['b']]
  · simpa using h.2.2 [['a'], ['b']] (by decide)

end EwsPlumbing
